import Mathlib

/-!
Shallow embedding of `src/mytest/create_pptx.py`, a script that builds a
sample PowerPoint presentation through the `python-pptx` library and embeds
one procedurally drawn PIL bitmap.

The script only sequences library calls, so the embedding models the
document objects the library exposes (presentation, slide, shape,
text frame, table, chart, picture) as explicit Lean structures and each of
each procedure of the script as a state transformer on the presentation.
Library semantics (what `add_slide`, `add_textbox`, `tf.text = s`, … do to
the document model) follow the documented behaviour of python-pptx and PIL;
everything else is translated line by line from the source file.

Machine-specific aspects (actual PNG byte encoding, XML serialisation) are
kept abstract: a saved image stream records the image it encodes and the
format string, which is all the script ever passes around.
-/

/-! ## Length units (pptx.util) -/

/-- Unit helper `Inches(x)` from `pptx.util`: a length of `x` inches, stored in EMU
(914400 EMU per inch). The script only ever uses it as an opaque length. -/
def Inches (x : ℚ) : ℚ := x * 914400

/-- Unit helper `Pt(x)` from `pptx.util`: a length of `x` points in EMU
(12700 EMU per point). -/
def Pt (x : ℚ) : ℚ := x * 12700

/-! ## Colours, alignment, enums -/

/-- Model of `pptx.dml.color.RGBColor`. -/
structure RGBColor where
  r : Nat
  g : Nat
  b : Nat
deriving DecidableEq, Repr

/-- Members of `pptx.enum.text.PP_ALIGN` used by the script. -/
inductive PPAlign where
  | CENTER
deriving DecidableEq, Repr

/-- Members of `pptx.enum.shapes.MSO_SHAPE` used by the script. -/
inductive MsoShape where
  | RECTANGLE
  | OVAL
  | STAR_5_POINT
  | HEART
deriving DecidableEq, Repr

/-- Members of `pptx.enum.chart.XL_CHART_TYPE` used by the script. -/
inductive XlChartType where
  | COLUMN_CLUSTERED
deriving DecidableEq, Repr

/-! ## Text frames -/

/-- Font attributes the script sets on paragraphs: `size` (a length, from
`Pt`), `bold`, `italic`; `none` means "inherit" (python-pptx `None`). -/
structure Font where
  size : Option ℚ := none
  bold : Option Bool := none
  italic : Option Bool := none
deriving DecidableEq, Repr

/-- One paragraph of a text frame. A fresh paragraph has empty text,
level 0, inherited font and no explicit alignment. -/
structure Paragraph where
  text : String := ""
  level : Nat := 0
  font : Font := {}
  alignment : Option PPAlign := none
deriving DecidableEq, Repr

/-- A text frame is a non-empty sequence of paragraphs; a newly created
text frame (new textbox, new placeholder, new table cell) holds a single
empty paragraph. -/
structure TextFrame where
  paragraphs : List Paragraph := [{}]
deriving DecidableEq, Repr

/-- Assignment `tf.text = s` (python-pptx): replaces the whole content of the text
frame with a single paragraph containing `s`. -/
def TextFrame.setText (_tf : TextFrame) (s : String) : TextFrame :=
  { paragraphs := [{ text := s }] }

/-- Call `tf.add_paragraph()` followed by configuring the returned paragraph:
appends the configured paragraph at the end of the frame. -/
def TextFrame.addPara (tf : TextFrame) (p : Paragraph) : TextFrame :=
  { tf with paragraphs := tf.paragraphs ++ [p] }

/-- Modify the element at position `i` of a list, if any (used for
`tf.paragraphs[0]` and table-cell addressing). -/
def modifyAt (f : α → α) : Nat → List α → List α
  | _, [] => []
  | 0, x :: xs => f x :: xs
  | n + 1, x :: xs => x :: modifyAt f n xs

/-- Mutation of paragraph `i` in the style of `tf.paragraphs[0].font := …` of paragraph `i`. -/
def TextFrame.modifyPara (tf : TextFrame) (i : Nat) (f : Paragraph → Paragraph) :
    TextFrame :=
  { tf with paragraphs := modifyAt f i tf.paragraphs }

/-! ## Placeholders and slide layouts -/

/-- Placeholder types relevant to the script: a centred title and subtitle
(title-slide layout), an ordinary title and a body (content layout). -/
inductive PhType where
  | ctrTitle
  | subTitle
  | title
  | body
deriving DecidableEq, Repr

/-- A placeholder declared on a slide layout: its placeholder `idx` and
type. -/
structure LayoutPh where
  idx : Nat
  phType : PhType
deriving DecidableEq, Repr

/-- A slide layout, reduced to the data the script observes: the
placeholders that `slides.add_slide(layout)` clones onto the new slide. -/
structure SlideLayout where
  placeholders : List LayoutPh
deriving DecidableEq, Repr

/-- The slide layouts of the default template opened by `Presentation()`.
The script only exercises layouts 0 ("Title Slide"), 1 ("Title and
Content") and 6 ("Blank"); the other eight layouts of the default template
are present so that indexing matches, with their placeholder lists
abbreviated to a bare title since nothing in the program reads them. -/
def defaultLayouts : List SlideLayout :=
  [ { placeholders := [⟨0, .ctrTitle⟩, ⟨1, .subTitle⟩] },  -- 0: Title Slide
    { placeholders := [⟨0, .title⟩, ⟨1, .body⟩] },         -- 1: Title and Content
    { placeholders := [⟨0, .title⟩] },                     -- 2: Section Header
    { placeholders := [⟨0, .title⟩] },                     -- 3: Two Content
    { placeholders := [⟨0, .title⟩] },                     -- 4: Comparison
    { placeholders := [⟨0, .title⟩] },                     -- 5: Title Only
    { placeholders := [] },                                -- 6: Blank
    { placeholders := [⟨0, .title⟩] },                     -- 7: Content with Caption
    { placeholders := [⟨0, .title⟩] },                     -- 8: Picture with Caption
    { placeholders := [⟨0, .title⟩] },                     -- 9: Title and Vertical Text
    { placeholders := [⟨0, .title⟩] } ]                    -- 10: Vertical Title and Text

/-! ## PIL images and in-memory streams -/

/-- A PIL drawing operation performed through `ImageDraw.Draw`. -/
inductive DrawOp where
  /-- Call `draw.rectangle([(x0,y0),(x1,y1)], fill=…, outline=…, width=…)`. -/
  | rectangle (x0 y0 x1 y1 : Int) (fill : Option String)
      (outline : Option String) (width : Nat)
  /-- Call `draw.text((x,y), s, fill=…, anchor=…)`. -/
  | text (x y : Int) (s : String) (fill : String) (anchor : Option String)
deriving DecidableEq, Repr

/-- A PIL image: `Image.new(mode, (width, height), color=background)`
followed by the recorded drawing operations, in order. -/
structure PilImage where
  mode : String
  width : Nat
  height : Nat
  background : String
  ops : List DrawOp := []
deriving DecidableEq, Repr

/-- Drawing operations of `ImageDraw` append to the operation list of the image. -/
def PilImage.draw (img : PilImage) (op : DrawOp) : PilImage :=
  { img with ops := img.ops ++ [op] }

/-- An in-memory byte stream (`io.BytesIO` in the source) after
`img.save(stream, format=fmt)`: it records the encoded image and the
format. `stream.seek(0)` repositions the read pointer and leaves the
contents unchanged, so it is the identity here. -/
structure MemStream where
  image : PilImage
  format : String
deriving DecidableEq, Repr

/-- What `add_picture` receives: a file path or an in-memory stream. -/
inductive ImageSource where
  | path (p : String)
  | stream (s : MemStream)
deriving DecidableEq, Repr

/-! ## Shapes -/

/-- State of `shape.fill`: `fill.solid()` makes it a solid fill with no colour set
yet; `fill.fore_color.rgb = c` then records the colour. A fresh auto shape
has the theme-inherited fill. -/
inductive Fill where
  | inherited
  | solid (foreColorRgb : Option RGBColor)
deriving DecidableEq, Repr

/-- An auto shape added by `shapes.add_shape(shape_type, l, t, w, h)`. -/
structure AutoShape where
  shapeType : MsoShape
  left : ℚ
  top : ℚ
  width : ℚ
  height : ℚ
  fill : Fill := .inherited
  shadowInherit : Bool := true
deriving DecidableEq, Repr

/-- A chart object inside a graphic frame. `add_chart` leaves the title
unset; the script then sets `has_title` and the title text. -/
structure Chart where
  chartType : XlChartType
  categories : List String
  series : List (String × List ℚ)
  hasTitle : Bool := false
  chartTitleText : String := ""
deriving DecidableEq, Repr

/-- A table inside a graphic frame: `rows × cols` cells, each cell holding
a text frame (a fresh cell holds one empty paragraph). -/
structure Table where
  rows : Nat
  cols : Nat
  cells : List (List TextFrame)
deriving DecidableEq, Repr

/-- Mutation through `table.cell(r, c)`: apply `f` to the text frame of the cell
at row `r`, column `c`. -/
def Table.cellMap (t : Table) (r c : Nat) (f : TextFrame → TextFrame) : Table :=
  { t with cells := modifyAt (modifyAt f c) r t.cells }

/-- A shape on a slide, in insertion order. -/
inductive PShape where
  /-- A placeholder cloned from the slide layout. -/
  | placeholder (idx : Nat) (phType : PhType) (tf : TextFrame)
  /-- Result of `shapes.add_textbox(l, t, w, h)`. -/
  | textbox (left top width height : ℚ) (tf : TextFrame)
  /-- Result of `shapes.add_shape(...)`. -/
  | auto (a : AutoShape)
  /-- Result of `shapes.add_table(...)`: graphic frame holding a table. -/
  | tableFrame (left top width height : ℚ) (t : Table)
  /-- Result of `shapes.add_chart(...)`: graphic frame holding a chart. -/
  | chartFrame (x y cx cy : ℚ) (c : Chart)
  /-- Result of `shapes.add_picture(src, l, t, width=…)`. -/
  | picture (src : ImageSource) (left top : ℚ) (width : Option ℚ)
deriving DecidableEq, Repr

/-- Is this shape a placeholder? (`slide.placeholders` membership.) -/
def PShape.isPlaceholder : PShape → Bool
  | .placeholder .. => true
  | _ => false

/-- Is this shape the title placeholder of the slide? python-pptx
`slide.shapes.title` returns the placeholder whose type is a (centred or
plain) title, `None` when there is none. -/
def PShape.isTitlePh : PShape → Bool
  | .placeholder _ .ctrTitle _ => true
  | .placeholder _ .title _ => true
  | _ => false

/-- Is this shape the placeholder with placeholder-index `i`?
(`slide.placeholders[i]` looks placeholders up by `idx`.) -/
def PShape.isPhIdx (i : Nat) : PShape → Bool
  | .placeholder j _ _ => j == i
  | _ => false

/-- Attribute access `getattr(shape, "text_frame", None)`: placeholders, textboxes and auto
shapes expose a text frame; graphic frames and pictures do not. -/
def PShape.textFrame : PShape → Option TextFrame
  | .placeholder _ _ tf => some tf
  | .textbox _ _ _ _ tf => some tf
  | _ => none

/-- Replace the text frame of the shape (mutation through a reference obtained
from the shape); shapes without a text frame are unchanged. -/
def PShape.withTextFrame (tf : TextFrame) : PShape → PShape
  | .placeholder i k _ => .placeholder i k tf
  | .textbox l t w h _ => .textbox l t w h tf
  | s => s

/-- Attribute access `getattr(shape, "chart", None)`: only a chart graphic frame has a
`chart` attribute. -/
def PShape.chart : PShape → Option Chart
  | .chartFrame _ _ _ _ c => some c
  | _ => none

/-- Replace the chart held by a chart graphic frame; other shapes are
unchanged. -/
def PShape.withChart (c : Chart) : PShape → PShape
  | .chartFrame x y cx cy _ => .chartFrame x y cx cy c
  | s => s

/-! ## Slides and presentations -/

/-- A slide: the layout it was created from and its shapes in insertion
order (cloned placeholders first, then added shapes). -/
structure Slide where
  layout : SlideLayout
  shapes : List PShape
deriving DecidableEq, Repr

/-- Call `prs.slides.add_slide(layout)` builds a slide whose initial shapes are
the placeholders of the layout, cloned with empty text frames. -/
def SlideLayout.newSlide (layout : SlideLayout) : Slide :=
  { layout := layout
    shapes := layout.placeholders.map fun ph => .placeholder ph.idx ph.phType {} }

/-- Accessor `slide.shapes.title`. -/
def Slide.title (s : Slide) : Option PShape :=
  s.shapes.find? PShape.isTitlePh

/-- Accessor `slide.placeholders` as a list. -/
def Slide.placeholders (s : Slide) : List PShape :=
  s.shapes.filter PShape.isPlaceholder

/-- Accessor `slide.placeholders[i]` (lookup by placeholder idx; in python-pptx a
missing idx raises `KeyError`, which the script never triggers — on the
layouts it uses the idx is always present after its length guard). -/
def Slide.placeholderAt (s : Slide) (i : Nat) : Option PShape :=
  s.shapes.find? (PShape.isPhIdx i)

/-- Mutate the first shape satisfying `p` (the object python references
point at); no-op when none matches. -/
def Slide.modifyFirst (s : Slide) (p : PShape → Bool) (f : PShape → PShape) :
    Slide :=
  { s with
    shapes :=
      match s.shapes.findIdx? p with
      | some i => modifyAt f i s.shapes
      | none => s.shapes }

/-- Calls of the form `slide.shapes.add_…`: append the new shape. -/
def Slide.addShape (s : Slide) (sh : PShape) : Slide :=
  { s with shapes := s.shapes ++ [sh] }

/-- The presentation document: the slide layouts of the template and the slides
added so far. `Presentation()` starts with the default template and no
slides. -/
structure PresDoc where
  slideLayouts : List SlideLayout
  slides : List Slide
deriving DecidableEq, Repr

/-- Constructor `Presentation()`: the default template, no slides. -/
def PresDoc.new : PresDoc :=
  { slideLayouts := defaultLayouts, slides := [] }

/-- Accessor `prs.slide_layouts[i]`. Out-of-range access raises in python; the
script only uses indices 0, 1 and 6 on the default template, which are in
bounds, so total `getD` access agrees with the source on every reachable
call. -/
def PresDoc.layoutAt (prs : PresDoc) (i : Nat) : SlideLayout :=
  prs.slideLayouts.getD i { placeholders := [] }

/-- Append a finished slide (`add_slide` plus the mutations the procedure
performed on it, which touch only the new slide). -/
def PresDoc.appendSlide (prs : PresDoc) (s : Slide) : PresDoc :=
  { prs with slides := prs.slides ++ [s] }

/-! ## create_title_slide -/

/-- Procedure `create_title_slide(prs)`, lines 62–77. The subtitle embeds
`datetime.now().strftime("%Y-%m-%d")`, which the embedding receives as the
explicit parameter `today`. -/
def create_title_slide (today : String) (prs : PresDoc) : PresDoc :=
  let title_slide_layout := prs.layoutAt 0
  let slide := title_slide_layout.newSlide
  -- if title is not None: title.text = "使用Python创建PowerPoint演示文稿"
  let slide :=
    match slide.title with
    | some _ =>
        slide.modifyFirst PShape.isTitlePh fun sh =>
          match sh.textFrame with
          | some tf => sh.withTextFrame (tf.setText "使用Python创建PowerPoint演示文稿")
          | none => sh
    | none => slide
  -- if len(slide.placeholders) > 1: placeholders[1].text = f"创建于 {…}\n…"
  let slide :=
    if slide.placeholders.length > 1 then
      match slide.placeholderAt 1 with
      | some _ =>
          slide.modifyFirst (PShape.isPhIdx 1) fun sh =>
            match sh.textFrame with
            | some tf =>
                sh.withTextFrame
                  (tf.setText ("创建于 " ++ today ++ "\npython-pptx 示例"))
            | none => sh
      | none => slide
    else slide
  prs.appendSlide slide

/-! ## create_content_slide -/

/-- The five bullet texts added by `create_content_slide`, lines 103–126,
each at indent level 1. -/
def bulletTexts : List String :=
  [ "创建新的 PowerPoint 演示文稿",
    "添加和格式化文本内容",
    "添加各种形状和图表",
    "添加表格和图片",
    "读取和修改现有的演示文稿" ]

/-- Procedure `create_content_slide(prs)`, lines 80–126. -/
def create_content_slide (prs : PresDoc) : PresDoc :=
  let bullet_slide_layout := prs.layoutAt 1
  let slide := bullet_slide_layout.newSlide
  -- if title is not None: title.text = "Python-PPTX 主要功能"
  let slide :=
    match slide.title with
    | some _ =>
        slide.modifyFirst PShape.isTitlePh fun sh =>
          match sh.textFrame with
          | some tf => sh.withTextFrame (tf.setText "Python-PPTX 主要功能")
          | none => sh
    | none => slide
  -- tf = None; if len(slide.placeholders) > 1: tf = getattr(placeholders[1], "text_frame", None)
  let tf :=
    if slide.placeholders.length > 1 then
      match slide.placeholderAt 1 with
      | some content => content.textFrame
      | none => none
    else none
  -- if tf is not None: tf.text = "…"; five add_paragraph calls at level 1
  let slide :=
    match tf with
    | some tf0 =>
        let tf1 := tf0.setText "Python-PPTX 库可以："
        let tf2 := bulletTexts.foldl (fun acc s => acc.addPara { text := s, level := 1 }) tf1
        slide.modifyFirst (PShape.isPhIdx 1) fun sh => sh.withTextFrame tf2
    | none => slide
  prs.appendSlide slide

/-! ## create_shapes_slide -/

/-- The shared title-textbox idiom, repeated verbatim in the shapes,
table, chart and both image procedures (e.g. lines 136–143):
`add_textbox(Inches(1), Inches(0.5), Inches(8), Inches(1))`, then
`p = tf.add_paragraph(); p.text = s; p.font.size = Pt(40);
p.font.bold = True; p.alignment = PP_ALIGN.CENTER`. -/
def titleBox (s : String) : PShape :=
  .textbox (Inches 1) (Inches 0.5) (Inches 8) (Inches 1)
    (TextFrame.addPara {}
      { text := s
        font := { size := some (Pt 40), bold := some true }
        alignment := some .CENTER })

/-- Procedure `create_shapes_slide(prs)`, lines 129–169. The triangle block is
commented out in the source, so only four shapes are added. -/
def create_shapes_slide (prs : PresDoc) : PresDoc :=
  let blank_slide_layout := prs.layoutAt 6
  let slide := blank_slide_layout.newSlide
  let slide := slide.addShape (titleBox "各种形状演示")
  -- rectangle: fill.solid(); fill.fore_color.rgb = (255,0,0); shadow.inherit = False
  let shape : AutoShape :=
    { shapeType := .RECTANGLE, left := Inches 1, top := Inches 2
      width := Inches 2, height := Inches 1 }
  let shape := { shape with fill := .solid none }
  let shape := { shape with fill := .solid (some ⟨255, 0, 0⟩) }
  let shape := { shape with shadowInherit := false }
  let slide := slide.addShape (.auto shape)
  -- oval: fill.solid(); fill.fore_color.rgb = (0,255,0)
  let shape : AutoShape :=
    { shapeType := .OVAL, left := Inches 4, top := Inches 2
      width := Inches 2, height := Inches 1 }
  let shape := { shape with fill := .solid none }
  let shape := { shape with fill := .solid (some ⟨0, 255, 0⟩) }
  let slide := slide.addShape (.auto shape)
  -- five-point star: fill (255,255,0)
  let shape : AutoShape :=
    { shapeType := .STAR_5_POINT, left := Inches 2.5, top := Inches 4
      width := Inches 2, height := Inches 2 }
  let shape := { shape with fill := .solid none }
  let shape := { shape with fill := .solid (some ⟨255, 255, 0⟩) }
  let slide := slide.addShape (.auto shape)
  -- heart: fill (255,0,255)
  let shape : AutoShape :=
    { shapeType := .HEART, left := Inches 5.5, top := Inches 4
      width := Inches 2, height := Inches 2 }
  let shape := { shape with fill := .solid none }
  let shape := { shape with fill := .solid (some ⟨255, 0, 255⟩) }
  let slide := slide.addShape (.auto shape)
  prs.appendSlide slide

/-! ## create_table_slide -/

/-- The header strings of line 197. -/
def tableHeaders : List String := ["产品", "季度销售额", "年度增长率"]

/-- The data tuples of lines 205–209. -/
def tableData : List (List String) :=
  [ ["产品 A", "¥10,000", "+15%"],
    ["产品 B", "¥8,500", "+10%"],
    ["产品 C", "¥12,750", "+20%"] ]

/-- Call `add_table(rows, cols, …)`: every fresh cell holds one empty
paragraph. -/
def newTable (rows cols : Nat) : Table :=
  { rows := rows, cols := cols
    cells := List.replicate rows (List.replicate cols {}) }

/-- Procedure `create_table_slide(prs)`, lines 172–214. -/
def create_table_slide (prs : PresDoc) : PresDoc :=
  let blank_slide_layout := prs.layoutAt 6
  let slide := blank_slide_layout.newSlide
  let slide := slide.addShape (titleBox "表格演示")
  let rows := 4
  let cols := 3
  let table := newTable rows cols
  -- for i, header in enumerate(headers): cell(0, i).text = header;
  --   paragraphs[0].font.bold = True; paragraphs[0].font.size = Pt(14)
  let table :=
    tableHeaders.enum.foldl
      (fun t (ih : Nat × String) =>
        t.cellMap 0 ih.1 fun tf =>
          let tf := tf.setText ih.2
          let tf := tf.modifyPara 0 fun p =>
            { p with font := { p.font with bold := some true } }
          tf.modifyPara 0 fun p =>
            { p with font := { p.font with size := some (Pt 14) } })
      table
  -- for row_idx, row_data in enumerate(data):
  --   for col_idx, cell_text in …: cell(row_idx + 1, col_idx).text = cell_text
  let table :=
    tableData.enum.foldl
      (fun t (rrow : Nat × List String) =>
        rrow.2.enum.foldl
          (fun t (ccell : Nat × String) =>
            t.cellMap (rrow.1 + 1) ccell.1 fun tf => tf.setText ccell.2)
          t)
      table
  let slide :=
    slide.addShape (.tableFrame (Inches 2) (Inches 2) (Inches 6) (Inches 2) table)
  prs.appendSlide slide

/-! ## create_chart_slide -/

/-- The category labels of line 234. -/
def chartCategories : List String := ["一季度", "二季度", "三季度", "四季度"]

/-- Procedure `create_chart_slide(prs)`, lines 217–260. -/
def create_chart_slide (prs : PresDoc) : PresDoc :=
  let blank_slide_layout := prs.layoutAt 6
  let slide := blank_slide_layout.newSlide
  let slide := slide.addShape (titleBox "图表演示")
  -- chart_data: categories, then two add_series calls
  let chart_data : List (String × List ℚ) := []
  let chart_data := chart_data ++ [("2024年", [8.5, 10.2, 12.5, 9.8])]
  let chart_data := chart_data ++ [("2025年", [10.2, 11.5, 13.8, 11.2])]
  let shape : PShape :=
    .chartFrame (Inches 1.5) (Inches 2) (Inches 7) (Inches 5)
      { chartType := .COLUMN_CLUSTERED
        categories := chartCategories
        series := chart_data }
  -- chart = getattr(shape, "chart", None); the hasattr guards on
  -- has_title / chart_title / text_frame all hold for a chart object
  let shape :=
    match shape.chart with
    | some chart =>
        shape.withChart
          { chart with hasTitle := true, chartTitleText := "季度销售额对比" }
    | none => shape
  let slide := slide.addShape shape
  prs.appendSlide slide

/-! ## create_image_slide -/

/-- Procedure `create_image_slide(prs)`, lines 263–301. The `add_picture` example is
inside a string literal (lines 284–288) and never executes; the procedure
adds only text boxes. -/
def create_image_slide (prs : PresDoc) : PresDoc :=
  let blank_slide_layout := prs.layoutAt 6
  let slide := blank_slide_layout.newSlide
  let slide := slide.addShape (titleBox "图片示例")
  -- textbox at (1, 2, 8, 1): tf.text = note; paragraphs[0].font.italic = True
  let tf : TextFrame := {}
  let tf := tf.setText "注意: 要添加图片，您需要有一个实际的图片文件"
  let tf := tf.modifyPara 0 fun p =>
    { p with font := { p.font with italic := some true } }
  let slide := slide.addShape (.textbox (Inches 1) (Inches 2) (Inches 8) (Inches 1) tf)
  -- textbox at (1, 4, 8, 2) with two added paragraphs
  let tf : TextFrame := {}
  let tf := tf.addPara
    { text := "使用 slide.shapes.add_picture() 方法添加图片"
      font := { size := some (Pt 20) }, alignment := some .CENTER }
  let tf := tf.addPara
    { text := "可以指定图片位置和大小"
      font := { size := some (Pt 16) }, alignment := some .CENTER }
  let slide := slide.addShape (.textbox (Inches 1) (Inches 4) (Inches 8) (Inches 2) tf)
  prs.appendSlide slide

/-! ## create_image_slide_v2 -/

/-- The bitmap drawn in memory by `create_image_slide_v2`, lines 318–344:
a 500×300 white RGB image with two rectangles and one centred text. -/
def drawnImage : PilImage :=
  let img : PilImage := { mode := "RGB", width := 500, height := 300, background := "white" }
  let img := img.draw (.rectangle 20 20 480 280 none (some "blue") 5)
  let img := img.draw (.rectangle 100 100 400 200 (some "lightblue") (some "darkblue") 2)
  img.draw (.text 250 150 "内存中生成的图片" "black" (some "mm"))

/-- Procedure `create_image_slide_v2(prs)`, lines 303–366. -/
def create_image_slide_v2 (prs : PresDoc) : PresDoc :=
  let blank_slide_layout := prs.layoutAt 6
  let slide := blank_slide_layout.newSlide
  let slide := slide.addShape (titleBox "内存图片示例")
  -- img_byte_arr = BytesIO(); img.save(img_byte_arr, format="PNG"); seek(0)
  let img_byte_arr : MemStream := { image := drawnImage, format := "PNG" }
  -- add_picture receives the stream itself, not a file path
  let slide :=
    slide.addShape (.picture (.stream img_byte_arr) (Inches 2) (Inches 2.5) (some (Inches 6)))
  -- caption textbox at (1, 6, 8, 1)
  let tf : TextFrame := {}
  let tf := tf.addPara
    { text := "使用BytesIO和PIL在内存中生成并添加图片"
      font := { size := some (Pt 16) }, alignment := some .CENTER }
  let slide := slide.addShape (.textbox (Inches 1) (Inches 6) (Inches 8) (Inches 1) tf)
  prs.appendSlide slide

/-! ## main -/

/-- The externally visible effects of a run: the one `prs.save(path)` call
and the final console message. -/
inductive Effect where
  | save (path : String) (doc : PresDoc)
  | consoleOut (msg : String)
deriving DecidableEq, Repr

/-- Is this effect a file write? -/
def Effect.isSave : Effect → Bool
  | .save _ _ => true
  | _ => false

namespace CreatePptx

/-- Procedure `main()`, lines 30–59. The ambient inputs the script could in
principle observe are passed explicitly: `today` (from `datetime.now()`),
`dir` (from `os.path.dirname(__file__)`), and — to state that they are
never read — the process arguments and environment. The result pairs the
final document with the ordered effect trace. -/
def main (today dir : String) (_args : List String)
    (_env : List (String × String)) : PresDoc × List Effect :=
  let prs := PresDoc.new
  let prs := create_title_slide today prs
  let prs := create_content_slide prs
  let prs := create_shapes_slide prs
  let prs := create_table_slide prs
  let prs := create_chart_slide prs
  let prs := create_image_slide prs
  let prs := create_image_slide_v2 prs
  let output_file := dir ++ "/sample_presentation.pptx"
  (prs, [Effect.save output_file prs,
         Effect.consoleOut ("演示文稿已保存为: " ++ output_file)])

end CreatePptx

namespace CreatePptx

/-- Fault-propagation view of `main`. The script contains no `try`/`except`
anywhere, so an exception raised by any of its eight sequential library
interactions — the seven slide procedures and the final `prs.save` — simply
aborts the run with that exception. `oracle k = some e` means the `k`-th
interaction (0–6: the slide procedures in program order, 7: `save`) raises
exception `e`; `none` means it completes normally. The nested matches
return immediately on a raise, mirroring the absence of any handler. -/
def mainE (today dir : String) (_args : List String)
    (_env : List (String × String)) (oracle : Nat → Option String) :
    Except String (PresDoc × List Effect) :=
  let prs := PresDoc.new
  match oracle 0 with
  | some e => .error e
  | none =>
  let prs := create_title_slide today prs
  match oracle 1 with
  | some e => .error e
  | none =>
  let prs := create_content_slide prs
  match oracle 2 with
  | some e => .error e
  | none =>
  let prs := create_shapes_slide prs
  match oracle 3 with
  | some e => .error e
  | none =>
  let prs := create_table_slide prs
  match oracle 4 with
  | some e => .error e
  | none =>
  let prs := create_chart_slide prs
  match oracle 5 with
  | some e => .error e
  | none =>
  let prs := create_image_slide prs
  match oracle 6 with
  | some e => .error e
  | none =>
  let prs := create_image_slide_v2 prs
  match oracle 7 with
  | some e => .error e
  | none =>
  let output_file := dir ++ "/sample_presentation.pptx"
  .ok (prs, [Effect.save output_file prs,
             Effect.consoleOut ("演示文稿已保存为: " ++ output_file)])

end CreatePptx

/-! ## Observers used to state the claims -/

/-- The document `main` builds and saves. -/
def mainDoc (today dir : String) (args : List String)
    (env : List (String × String)) : PresDoc :=
  (CreatePptx.main today dir args env).1

/-- Is this shape a textbox? -/
def PShape.isTextbox : PShape → Bool
  | .textbox .. => true
  | _ => false

/-- Is this shape a picture (the result of an `add_picture` call)? -/
def PShape.isPicture : PShape → Bool
  | .picture .. => true
  | _ => false

/-- Is this shape an auto shape (`add_shape`)? -/
def PShape.isAuto : PShape → Bool
  | .auto _ => true
  | _ => false

/-- Count the shapes of a slide satisfying `p`. -/
def Slide.countShapes (s : Slide) (p : PShape → Bool) : Nat :=
  (s.shapes.filter p).length

/-- The first table on the slide, if any. -/
def Slide.firstTable (s : Slide) : Option Table :=
  s.shapes.findSome? fun sh =>
    match sh with
    | .tableFrame _ _ _ _ t => some t
    | _ => none

/-- The first chart on the slide, if any. -/
def Slide.firstChart (s : Slide) : Option Chart :=
  s.shapes.findSome? fun sh =>
    match sh with
    | .chartFrame _ _ _ _ c => some c
    | _ => none

/-- The image source of the first picture on the slide, if any. -/
def Slide.firstPictureSrc (s : Slide) : Option ImageSource :=
  s.shapes.findSome? fun sh =>
    match sh with
    | .picture src _ _ _ => some src
    | _ => none

/-- The title-placeholder text of the slide (first paragraph), if the
slide has one. -/
def Slide.titleText (s : Slide) : Option String :=
  (s.title.bind PShape.textFrame).map fun tf => (tf.paragraphs.getD 0 {}).text

/-- Does the slide carry a textbox one of whose paragraphs is exactly
`txt`? -/
def Slide.hasTextboxWithText (s : Slide) (txt : String) : Bool :=
  s.shapes.any fun sh =>
    match sh with
    | .textbox _ _ _ _ tf => tf.paragraphs.any (fun p => p.text == txt)
    | _ => false

/-- The `i`-th slide of a presentation (empty slide when out of range). -/
def PresDoc.slideAt (prs : PresDoc) (i : Nat) : Slide :=
  prs.slides.getD i ⟨⟨[]⟩, []⟩

/-- The text of the subtitle placeholder (placeholder idx 1) of the first
slide, if present. -/
def subtitleTextOf (prs : PresDoc) : Option String :=
  ((prs.slideAt 0).placeholderAt 1 |>.bind PShape.textFrame).map fun tf =>
    (tf.paragraphs.getD 0 {}).text

/-- Text of the cell at row `r`, column `c` (first paragraph; empty when
out of range). -/
def Table.cellText (t : Table) (r c : Nat) : String :=
  (((t.cells.getD r []).getD c {}).paragraphs.getD 0 {}).text

/-- Font of the cell at row `r`, column `c` (first paragraph). -/
def Table.cellFont (t : Table) (r c : Nat) : Font :=
  (((t.cells.getD r []).getD c {}).paragraphs.getD 0 {}).font

/-! ## The seven procedures as a list (for the order-independence and
slide-count claims) -/

/-- The seven slide-creation procedures, in the order `main` invokes
them. `create_title_slide` is partially applied to the ambient date, the
only outside input any of them reads. -/
def slideProcs (today : String) : List (PresDoc → PresDoc) :=
  [ create_title_slide today, create_content_slide, create_shapes_slide,
    create_table_slide, create_chart_slide, create_image_slide,
    create_image_slide_v2 ]

/-- Apply a list of slide procedures left to right, threading the
document. -/
def runProcs (ps : List (PresDoc → PresDoc)) (prs : PresDoc) : PresDoc :=
  ps.foldl (fun acc p => p acc) prs

/-- The `i`-th slide procedure (identity out of range). -/
def procAt (today : String) (i : Nat) : PresDoc → PresDoc :=
  (slideProcs today).getD i id

/-- The slide that procedure `i` appends to a presentation whose template
has layouts `layouts` — obtained by running the procedure itself on a
slideless presentation with those layouts. The appended slide depends only
on the layouts (and, for the title slide, the date): no data flows into it
from slides already present. -/
def slideMade (today : String) (layouts : List SlideLayout) (i : Nat) : Slide :=
  (procAt today i { slideLayouts := layouts, slides := [] }).slides.getD 0 ⟨⟨[]⟩, []⟩

/-! ## Evaluated form of the built document

The following literals are the result of running the seven procedures on
the fresh presentation; `mainDoc_eval` certifies, definitionally, that
`main` builds exactly this document. Only the title slide depends on the
ambient date. -/

/-- Header-row cell after `cell.text = s` and the bold / 14 pt font
mutations. -/
def headerCell (s : String) : TextFrame :=
  { paragraphs := [{ text := s, font := { size := some (Pt 14), bold := some true } }] }

/-- Plain cell after `cell.text = s`. -/
def plainCell (s : String) : TextFrame :=
  { paragraphs := [{ text := s }] }

/-- Slide 0 as built: the title slide with both placeholders filled. -/
def slide0Lit (today : String) : Slide :=
  { layout := { placeholders := [⟨0, .ctrTitle⟩, ⟨1, .subTitle⟩] }
    shapes :=
      [ .placeholder 0 .ctrTitle
          { paragraphs := [{ text := "使用Python创建PowerPoint演示文稿" }] },
        .placeholder 1 .subTitle
          { paragraphs := [{ text := "创建于 " ++ today ++ "\npython-pptx 示例" }] } ] }

/-- Slide 1 as built: the bulleted-content slide. -/
def slide1Lit : Slide :=
  { layout := { placeholders := [⟨0, .title⟩, ⟨1, .body⟩] }
    shapes :=
      [ .placeholder 0 .title { paragraphs := [{ text := "Python-PPTX 主要功能" }] },
        .placeholder 1 .body
          { paragraphs :=
              [ { text := "Python-PPTX 库可以：" },
                { text := "创建新的 PowerPoint 演示文稿", level := 1 },
                { text := "添加和格式化文本内容", level := 1 },
                { text := "添加各种形状和图表", level := 1 },
                { text := "添加表格和图片", level := 1 },
                { text := "读取和修改现有的演示文稿", level := 1 } ] } ] }

/-- Slide 2 as built: the shapes slide with its four auto shapes. -/
def slide2Lit : Slide :=
  { layout := { placeholders := [] }
    shapes :=
      [ titleBox "各种形状演示",
        .auto { shapeType := .RECTANGLE, left := Inches 1, top := Inches 2
                width := Inches 2, height := Inches 1
                fill := .solid (some ⟨255, 0, 0⟩), shadowInherit := false },
        .auto { shapeType := .OVAL, left := Inches 4, top := Inches 2
                width := Inches 2, height := Inches 1
                fill := .solid (some ⟨0, 255, 0⟩) },
        .auto { shapeType := .STAR_5_POINT, left := Inches 2.5, top := Inches 4
                width := Inches 2, height := Inches 2
                fill := .solid (some ⟨255, 255, 0⟩) },
        .auto { shapeType := .HEART, left := Inches 5.5, top := Inches 4
                width := Inches 2, height := Inches 2
                fill := .solid (some ⟨255, 0, 255⟩) } ] }

/-- The table of the table slide as built: headers bold at 14 pt in row 0,
the three data rows below. -/
def tableLit : Table :=
  { rows := 4, cols := 3
    cells :=
      [ [headerCell "产品", headerCell "季度销售额", headerCell "年度增长率"],
        [plainCell "产品 A", plainCell "¥10,000", plainCell "+15%"],
        [plainCell "产品 B", plainCell "¥8,500", plainCell "+10%"],
        [plainCell "产品 C", plainCell "¥12,750", plainCell "+20%"] ] }

/-- Slide 3 as built: the table slide. -/
def slide3Lit : Slide :=
  { layout := { placeholders := [] }
    shapes :=
      [ titleBox "表格演示",
        .tableFrame (Inches 2) (Inches 2) (Inches 6) (Inches 2) tableLit ] }

/-- Slide 4 as built: the chart slide. -/
def slide4Lit : Slide :=
  { layout := { placeholders := [] }
    shapes :=
      [ titleBox "图表演示",
        .chartFrame (Inches 1.5) (Inches 2) (Inches 7) (Inches 5)
          { chartType := .COLUMN_CLUSTERED
            categories := chartCategories
            series := [("2024年", [8.5, 10.2, 12.5, 9.8]),
                       ("2025年", [10.2, 11.5, 13.8, 11.2])]
            hasTitle := true
            chartTitleText := "季度销售额对比" } ] }

/-- Slide 5 as built: the first image slide — three textboxes and no
picture. -/
def slide5Lit : Slide :=
  { layout := { placeholders := [] }
    shapes :=
      [ titleBox "图片示例",
        .textbox (Inches 1) (Inches 2) (Inches 8) (Inches 1)
          { paragraphs :=
              [ { text := "注意: 要添加图片，您需要有一个实际的图片文件"
                  font := { italic := some true } } ] },
        .textbox (Inches 1) (Inches 4) (Inches 8) (Inches 2)
          { paragraphs :=
              [ {},
                { text := "使用 slide.shapes.add_picture() 方法添加图片"
                  font := { size := some (Pt 20) }, alignment := some .CENTER },
                { text := "可以指定图片位置和大小"
                  font := { size := some (Pt 16) }, alignment := some .CENTER } ] } ] }

/-- Slide 6 as built: the second image slide with the in-memory picture. -/
def slide6Lit : Slide :=
  { layout := { placeholders := [] }
    shapes :=
      [ titleBox "内存图片示例",
        .picture (.stream { image := drawnImage, format := "PNG" })
          (Inches 2) (Inches 2.5) (some (Inches 6)),
        .textbox (Inches 1) (Inches 6) (Inches 8) (Inches 1)
          { paragraphs :=
              [ {},
                { text := "使用BytesIO和PIL在内存中生成并添加图片"
                  font := { size := some (Pt 16) }, alignment := some .CENTER } ] } ] }

/-- The document `main` builds, written out slide by slide. -/
def mainLit (today : String) : PresDoc :=
  { slideLayouts := defaultLayouts
    slides := [slide0Lit today, slide1Lit, slide2Lit, slide3Lit,
               slide4Lit, slide5Lit, slide6Lit] }

set_option maxHeartbeats 4000000 in
/-- Evaluation lemma: `main` builds exactly `mainLit today`, independently of `dir`, the
process arguments and the environment. -/
lemma mainDoc_eval (today dir : String) (args : List String)
    (env : List (String × String)) :
    mainDoc today dir args env = mainLit today := rfl

/-- The effect trace of `main`: one save of the built document, then the
console message. -/
lemma mainEffects_eval (today dir : String) (args : List String)
    (env : List (String × String)) :
    (CreatePptx.main today dir args env).2 =
      [Effect.save (dir ++ "/sample_presentation.pptx") (mainDoc today dir args env),
       Effect.consoleOut ("演示文稿已保存为: " ++ (dir ++ "/sample_presentation.pptx"))] := rfl

/-! ## Claims -/

/-- C1: running `main` on a fresh empty presentation creates exactly seven
slides, in order: a title slide (built from the title layout, title text
set), a bulleted-content slide, a shapes slide (four auto shapes), a table
slide, a chart slide, and two image slides (the first carrying the
"actual image file" note and the second a picture); the document handed to
the single `save` call is that same seven-slide document. -/
theorem seven_slides_in_order (today dir : String) (args : List String)
    (env : List (String × String)) :
    (mainDoc today dir args env).slides.length = 7
    ∧ (PresDoc.slideAt (mainDoc today dir args env) 0).layout
        = defaultLayouts.getD 0 ⟨[]⟩
    ∧ Slide.titleText (PresDoc.slideAt (mainDoc today dir args env) 0)
        = some "使用Python创建PowerPoint演示文稿"
    ∧ Slide.titleText (PresDoc.slideAt (mainDoc today dir args env) 1)
        = some "Python-PPTX 主要功能"
    ∧ (((PresDoc.slideAt (mainDoc today dir args env) 1).placeholderAt 1
          |>.bind PShape.textFrame).map fun tf =>
            tf.paragraphs.map fun p => (p.text, p.level))
        = some [("Python-PPTX 库可以：", 0),
                ("创建新的 PowerPoint 演示文稿", 1),
                ("添加和格式化文本内容", 1),
                ("添加各种形状和图表", 1),
                ("添加表格和图片", 1),
                ("读取和修改现有的演示文稿", 1)]
    ∧ Slide.countShapes (PresDoc.slideAt (mainDoc today dir args env) 2)
        PShape.isAuto = 4
    ∧ (Slide.firstTable (PresDoc.slideAt (mainDoc today dir args env) 3)).isSome
        = true
    ∧ (Slide.firstChart (PresDoc.slideAt (mainDoc today dir args env) 4)).isSome
        = true
    ∧ Slide.hasTextboxWithText (PresDoc.slideAt (mainDoc today dir args env) 5)
        "注意: 要添加图片，您需要有一个实际的图片文件" = true
    ∧ Slide.countShapes (PresDoc.slideAt (mainDoc today dir args env) 6)
        PShape.isPicture = 1
    ∧ (CreatePptx.main today dir args env).2.getD 0 (.consoleOut "")
        = .save (dir ++ "/sample_presentation.pptx") (mainDoc today dir args env) := by
  rw [mainEffects_eval, mainDoc_eval]
  exact ⟨rfl, rfl, rfl, rfl, rfl, rfl, rfl, rfl, rfl, rfl, rfl⟩

/-- C4: of the two image slides, the first (`create_image_slide`, sixth
slide) embeds no picture — every shape it adds is a textbox, one of which
is the note saying an actual image file would be needed — while only the
second (`create_image_slide_v2`, seventh slide) contains a picture, whose
source is the procedurally drawn in-memory bitmap stream. -/
theorem image_slides_picture_usage (today dir : String) (args : List String)
    (env : List (String × String)) :
    Slide.countShapes (PresDoc.slideAt (mainDoc today dir args env) 5)
        PShape.isPicture = 0
    ∧ (PresDoc.slideAt (mainDoc today dir args env) 5).shapes.all
        PShape.isTextbox = true
    ∧ Slide.hasTextboxWithText (PresDoc.slideAt (mainDoc today dir args env) 5)
        "注意: 要添加图片，您需要有一个实际的图片文件" = true
    ∧ Slide.countShapes (PresDoc.slideAt (mainDoc today dir args env) 6)
        PShape.isPicture = 1
    ∧ Slide.firstPictureSrc (PresDoc.slideAt (mainDoc today dir args env) 6)
        = some (.stream { image := drawnImage, format := "PNG" })
    ∧ (mainDoc today dir args env).slides.map
        (fun s => Slide.countShapes s PShape.isPicture) = [0, 0, 0, 0, 0, 0, 1] := by
  rw [mainDoc_eval]
  exact ⟨rfl, rfl, rfl, rfl, rfl, rfl⟩

/-- C5: the bitmap embedded by `create_image_slide_v2` is produced by
drawing exactly two rectangles and one centred text label (anchor `"mm"`
at the midpoint of the 500×300 canvas) onto a 500×300 white RGB in-memory
image; the image is encoded in format `"PNG"` into an in-memory stream,
and that stream — not a file path — is what the `add_picture` call
receives. -/
theorem drawn_bitmap_content (today dir : String) (args : List String)
    (env : List (String × String)) :
    drawnImage.mode = "RGB"
    ∧ drawnImage.width = 500
    ∧ drawnImage.height = 300
    ∧ drawnImage.background = "white"
    ∧ drawnImage.ops =
        [ .rectangle 20 20 480 280 none (some "blue") 5,
          .rectangle 100 100 400 200 (some "lightblue") (some "darkblue") 2,
          .text 250 150 "内存中生成的图片" "black" (some "mm") ]
    ∧ Slide.firstPictureSrc (PresDoc.slideAt (mainDoc today dir args env) 6)
        = some (.stream { image := drawnImage, format := "PNG" }) := by
  rw [mainDoc_eval]
  exact ⟨rfl, rfl, rfl, rfl, by decide, rfl⟩

/-- C6: the chart data of the chart slide has exactly the four literal
categories and exactly two series, each carrying exactly four literal
values, and the chart is added as a clustered-column chart. -/
theorem chart_two_series_four_categories (today dir : String)
    (args : List String) (env : List (String × String)) :
    Slide.firstChart (PresDoc.slideAt (mainDoc today dir args env) 4)
      = some { chartType := .COLUMN_CLUSTERED
               categories := ["一季度", "二季度", "三季度", "四季度"]
               series := [("2024年", [8.5, 10.2, 12.5, 9.8]),
                          ("2025年", [10.2, 11.5, 13.8, 11.2])]
               hasTitle := true
               chartTitleText := "季度销售额对比" }
    ∧ chartCategories.length = 4
    ∧ (Slide.firstChart (PresDoc.slideAt (mainDoc today dir args env) 4)).map
        (fun c => (c.categories.length, c.series.map fun sr => sr.2.length))
      = some (4, [4, 4]) := by
  rw [mainDoc_eval]
  refine ⟨rfl, rfl, rfl⟩

/-- C7: the table slide carries exactly one table, of 4 rows and 3
columns; row 0 holds the three header strings with bold 14 pt font, and
for every data row `r` and column `c` the cell at table row `r + 1` holds
the literal string `tableData[r][c]`, so all 12 cells are filled. -/
theorem table_contents (today dir : String) (args : List String)
    (env : List (String × String)) :
    (PresDoc.slideAt (mainDoc today dir args env) 3).shapes.filterMap
        (fun sh => match sh with
          | .tableFrame _ _ _ _ tb => some tb
          | _ => none) = [tableLit]
    ∧ tableLit.rows = 4 ∧ tableLit.cols = 3
    ∧ tableLit.cells.map (fun row => row.length) = [3, 3, 3, 3]
    ∧ tableLit.cellText 0 0 = "产品"
    ∧ tableLit.cellText 0 1 = "季度销售额"
    ∧ tableLit.cellText 0 2 = "年度增长率"
    ∧ (tableLit.cellFont 0 0 = { size := some (Pt 14), bold := some true }
        ∧ tableLit.cellFont 0 1 = { size := some (Pt 14), bold := some true }
        ∧ tableLit.cellFont 0 2 = { size := some (Pt 14), bold := some true })
    ∧ (tableData.enum.all fun rrow =>
        rrow.2.enum.all fun ccell =>
          tableLit.cellText (rrow.1 + 1) ccell.1 == ccell.2) = true
    ∧ tableLit.cellText 1 0 = "产品 A" ∧ tableLit.cellText 1 1 = "¥10,000"
    ∧ tableLit.cellText 1 2 = "+15%"
    ∧ tableLit.cellText 2 0 = "产品 B" ∧ tableLit.cellText 2 1 = "¥8,500"
    ∧ tableLit.cellText 2 2 = "+10%"
    ∧ tableLit.cellText 3 0 = "产品 C" ∧ tableLit.cellText 3 1 = "¥12,750"
    ∧ tableLit.cellText 3 2 = "+20%" := by
  rw [mainDoc_eval]
  exact ⟨rfl, rfl, rfl, by decide, rfl, rfl, rfl, ⟨rfl, rfl, rfl⟩, by decide,
         rfl, rfl, rfl, rfl, rfl, rfl, rfl, rfl, rfl⟩

/-- C8: the program reads neither command-line arguments nor environment
variables — its result is invariant in both — and its effect trace
consists of exactly one file save (of the built document, at the single
output path) followed by one console message; no other effect exists. -/
theorem no_ambient_inputs_single_save (today dir : String)
    (args argsB : List String) (env envB : List (String × String)) :
    CreatePptx.main today dir args env = CreatePptx.main today dir argsB envB
    ∧ (CreatePptx.main today dir args env).2 =
        [Effect.save (dir ++ "/sample_presentation.pptx")
           (mainDoc today dir args env),
         Effect.consoleOut ("演示文稿已保存为: "
           ++ (dir ++ "/sample_presentation.pptx"))]
    ∧ ((CreatePptx.main today dir args env).2.filter Effect.isSave) =
        [Effect.save (dir ++ "/sample_presentation.pptx")
           (mainDoc today dir args env)]
    ∧ ((CreatePptx.main today dir args env).2.filter Effect.isSave).length = 1 := by
  refine ⟨rfl, mainEffects_eval today dir args env, ?_, ?_⟩
  · rw [mainEffects_eval]; rfl
  · rw [mainEffects_eval]; rfl

/-- Each of the seven procedures only appends one slide, and the slide it
appends is a function of the template layouts (and the date) alone. -/
lemma procAt_appendSlide (today : String) (prs : PresDoc) :
    ∀ i, i < 7 →
      procAt today i prs = prs.appendSlide (slideMade today prs.slideLayouts i) := by
  intro i hi
  interval_cases i <;> rfl

/-- Running any list of in-range procedures appends their slides, in the
order the procedures run, leaving the template and the existing slides
untouched. -/
lemma runProcs_eval (today : String) :
    ∀ σ : List Nat, (∀ i ∈ σ, i < 7) → ∀ prs : PresDoc,
      runProcs (σ.map (procAt today)) prs =
        { slideLayouts := prs.slideLayouts
          slides := prs.slides ++ σ.map (slideMade today prs.slideLayouts) } := by
  intro σ
  induction σ with
  | nil => intro _ prs; simp [runProcs]
  | cons i σ ih =>
      intro h prs
      have hi : i < 7 := h i (List.mem_cons_self i σ)
      have hr : ∀ j ∈ σ, j < 7 := fun j hj => h j (List.mem_cons_of_mem _ hj)
      have step : runProcs ((i :: σ).map (procAt today)) prs
          = runProcs (σ.map (procAt today)) (procAt today i prs) := rfl
      rw [step, procAt_appendSlide today prs i hi, ih hr]
      show ({ slideLayouts := prs.slideLayouts
              slides := (prs.slides ++ [slideMade today prs.slideLayouts i])
                ++ σ.map (slideMade today prs.slideLayouts) } : PresDoc) = _
      rw [List.append_assoc]
      rfl

/-- C2: no slide procedure returns a value another consumes — each is a
pure state transformer on the document whose appended slide is computed
from the template layouts (and date) alone, as `runProcs_eval` shows — and
running the seven procedures in any order `σ` yields the same template and
the same slides up to the order of accumulation: the slide multiset is a
permutation of the slides of the program-order run. -/
theorem slide_procs_order_independent (today : String) (prs : PresDoc)
    (σ : List Nat) (hσ : σ.Perm (List.range 7)) :
    (runProcs (σ.map (procAt today)) prs).slideLayouts = prs.slideLayouts
    ∧ (runProcs (σ.map (procAt today)) prs).slides
        = prs.slides ++ σ.map (slideMade today prs.slideLayouts)
    ∧ (runProcs (σ.map (procAt today)) prs).slides.Perm
        (runProcs (slideProcs today) prs).slides := by
  have hmem : ∀ i ∈ σ, i < 7 := fun i hi =>
    List.mem_range.mp (hσ.mem_iff.mp hi)
  have h7 : ∀ i ∈ List.range 7, i < 7 := fun i hi => List.mem_range.mp hi
  have e1 := runProcs_eval today σ hmem prs
  have eOrd : slideProcs today = (List.range 7).map (procAt today) := rfl
  have e2 := runProcs_eval today (List.range 7) h7 prs
  refine ⟨by rw [e1], by rw [e1], ?_⟩
  rw [e1, eOrd, e2]
  exact List.Perm.append_left _ (hσ.map _)

/-- Instance of C2 at a concrete reversed order on the fresh
presentation. -/
theorem slide_procs_order_independent_witness :
    ([6, 5, 4, 3, 2, 1, 0] : List Nat).Perm (List.range 7)
    ∧ (runProcs ([6, 5, 4, 3, 2, 1, 0].map (procAt "2024-01-01"))
          PresDoc.new).slides.Perm
        (runProcs (slideProcs "2024-01-01") PresDoc.new).slides :=
  ⟨by decide,
   (slide_procs_order_independent "2024-01-01" PresDoc.new
      [6, 5, 4, 3, 2, 1, 0] (by decide)).2.2⟩

/-- C10: on any presentation whose template has the layouts the script
indexes (the default template has 11, so index 6 exists), every one of the
seven slide-creation procedures appends exactly one slide at the end:
the new slide list is the old one plus one slide, so the count grows by
exactly one and the slides already present are kept, unchanged and in
order, as a prefix. -/
theorem each_proc_appends_one_slide (today : String) (prs : PresDoc)
    (_hlay : 7 ≤ prs.slideLayouts.length) :
    (∃ s, (create_title_slide today prs).slides = prs.slides ++ [s])
    ∧ (∃ s, (create_content_slide prs).slides = prs.slides ++ [s])
    ∧ (∃ s, (create_shapes_slide prs).slides = prs.slides ++ [s])
    ∧ (∃ s, (create_table_slide prs).slides = prs.slides ++ [s])
    ∧ (∃ s, (create_chart_slide prs).slides = prs.slides ++ [s])
    ∧ (∃ s, (create_image_slide prs).slides = prs.slides ++ [s])
    ∧ (∃ s, (create_image_slide_v2 prs).slides = prs.slides ++ [s])
    ∧ (∀ i, i < 7 →
        (procAt today i prs).slides.length = prs.slides.length + 1
        ∧ (procAt today i prs).slides.take prs.slides.length = prs.slides) := by
  refine ⟨⟨_, rfl⟩, ⟨_, rfl⟩, ⟨_, rfl⟩, ⟨_, rfl⟩, ⟨_, rfl⟩, ⟨_, rfl⟩, ⟨_, rfl⟩, ?_⟩
  intro i hi
  rw [procAt_appendSlide today prs i hi]
  constructor
  · simp [PresDoc.appendSlide]
  · simp [PresDoc.appendSlide]

/-- Instance of C10 on the fresh default presentation. -/
theorem each_proc_appends_one_slide_witness :
    7 ≤ PresDoc.new.slideLayouts.length
    ∧ (∃ s, (create_title_slide "2024-01-01" PresDoc.new).slides
          = PresDoc.new.slides ++ [s]) :=
  ⟨by decide,
   (each_proc_appends_one_slide "2024-01-01" PresDoc.new (by decide)).1⟩

/-- Gluing a fixed prefix and suffix around a string is injective (used
for the date-bearing subtitle). -/
lemma affix_inj (a b s t : String) (h : a ++ s ++ b = a ++ t ++ b) : s = t := by
  have hd := congrArg String.data h
  simp only [String.data_append] at hd
  exact String.ext (List.append_cancel_left (List.append_cancel_right hd))

/-- C9: the program is not deterministic across runs — the subtitle of the
title slide embeds the current date, so runs on different dates produce
different in-memory documents (and hence different save payloads), even
though the program takes no input. -/
theorem output_depends_on_date (t1 t2 dir : String) (args : List String)
    (env : List (String × String)) (h : t1 ≠ t2) :
    subtitleTextOf (mainDoc t1 dir args env)
        = some ("创建于 " ++ t1 ++ "\npython-pptx 示例")
    ∧ subtitleTextOf (mainDoc t1 dir args env)
        ≠ subtitleTextOf (mainDoc t2 dir args env)
    ∧ mainDoc t1 dir args env ≠ mainDoc t2 dir args env
    ∧ CreatePptx.main t1 dir args env ≠ CreatePptx.main t2 dir args env := by
  have key : ∀ t dir2 args2 env2, subtitleTextOf (mainDoc t dir2 args2 env2)
      = some ("创建于 " ++ t ++ "\npython-pptx 示例") := by
    intro t dir2 args2 env2
    rw [mainDoc_eval]
    rfl
  have hne : subtitleTextOf (mainDoc t1 dir args env)
      ≠ subtitleTextOf (mainDoc t2 dir args env) := by
    rw [key, key]
    intro he
    exact h (affix_inj "创建于 " "\npython-pptx 示例" t1 t2 (Option.some.inj he))
  refine ⟨key t1 dir args env, hne, ?_, ?_⟩
  · intro he
    exact hne (congrArg subtitleTextOf he)
  · intro he
    exact hne (congrArg (fun r => subtitleTextOf r.1) he)

/-- Instance of C9 on two concrete dates. -/
theorem output_depends_on_date_witness :
    ("2024-01-01" : String) ≠ "2024-01-02"
    ∧ mainDoc "2024-01-01" "." [] [] ≠ mainDoc "2024-01-02" "." [] [] :=
  ⟨by decide,
   (output_depends_on_date "2024-01-01" "2024-01-02" "." [] []
      (by decide)).2.2.1⟩

/-- C3: the script installs no exception handler: under the
fault-propagation view `mainE`, if the first `k` library interactions
succeed and interaction `k` raises `e` (any of the seven slide procedures
or the final save, `k ≤ 7`), the whole run aborts with exactly `e`; and
when nothing raises, the run returns precisely the document and effects of `main`. The only guards in the procedures themselves are the
optional-value checks (`slide.shapes.title` against `None`,
placeholder-count tests, `getattr`/`hasattr` around the chart), modelled
by the `Option` matches inside them. -/
theorem exceptions_propagate (today dir : String) (args : List String)
    (env : List (String × String)) (oracle : Nat → Option String) :
    (∀ k e, k ≤ 7 → (∀ j, j < k → oracle j = none) → oracle k = some e →
        CreatePptx.mainE today dir args env oracle = .error e)
    ∧ ((∀ j, j ≤ 7 → oracle j = none) →
        CreatePptx.mainE today dir args env oracle
          = .ok (CreatePptx.main today dir args env)) := by
  constructor
  · intro k e hk hok hraise
    interval_cases k
    · simp only [CreatePptx.mainE]
      rw [hraise]
    · simp only [CreatePptx.mainE]
      rw [hok 0 (by omega), hraise]
    · simp only [CreatePptx.mainE]
      rw [hok 0 (by omega), hok 1 (by omega), hraise]
    · simp only [CreatePptx.mainE]
      rw [hok 0 (by omega), hok 1 (by omega), hok 2 (by omega), hraise]
    · simp only [CreatePptx.mainE]
      rw [hok 0 (by omega), hok 1 (by omega), hok 2 (by omega),
          hok 3 (by omega), hraise]
    · simp only [CreatePptx.mainE]
      rw [hok 0 (by omega), hok 1 (by omega), hok 2 (by omega),
          hok 3 (by omega), hok 4 (by omega), hraise]
    · simp only [CreatePptx.mainE]
      rw [hok 0 (by omega), hok 1 (by omega), hok 2 (by omega),
          hok 3 (by omega), hok 4 (by omega), hok 5 (by omega), hraise]
    · simp only [CreatePptx.mainE]
      rw [hok 0 (by omega), hok 1 (by omega), hok 2 (by omega),
          hok 3 (by omega), hok 4 (by omega), hok 5 (by omega),
          hok 6 (by omega), hraise]
  · intro hok
    simp only [CreatePptx.mainE]
    rw [hok 0 (by omega), hok 1 (by omega), hok 2 (by omega),
        hok 3 (by omega), hok 4 (by omega), hok 5 (by omega),
        hok 6 (by omega), hok 7 (by omega)]
    rfl

/-- Instance of C3: a raise at the fourth interaction aborts the run with
that exception; the never-raising oracle returns the result of `main`. -/
theorem exceptions_propagate_witness :
    CreatePptx.mainE "2024-01-01" "." [] []
        (fun j => if j = 3 then some "boom" else none) = .error "boom"
    ∧ CreatePptx.mainE "2024-01-01" "." [] [] (fun _ => none)
        = .ok (CreatePptx.main "2024-01-01" "." [] []) :=
  ⟨(exceptions_propagate "2024-01-01" "." [] []
      (fun j => if j = 3 then some "boom" else none)).1 3 "boom"
      (by omega) (by intro j hj; interval_cases j <;> rfl) rfl,
   (exceptions_propagate "2024-01-01" "." [] [] (fun _ => none)).2
      (fun _ _ => rfl)⟩
